import Mathlib

/-!
Verification development for `src/custom/My_Tpetra_Vector/My_Tpetra_Vector.cpp`.

The file under study is a driver routine (`exampleRoutine`) that builds two
Tpetra Maps (a contiguous one and a 1-D cyclic one) over `5 * P` global
elements for `P` MPI processes, checks four assertions about them, builds
three vectors over the contiguous Map, performs two scaled updates and three
norm computations, and prints the results.  The Map and Vector semantics live
in the external Tpetra library; they are modelled here from the specification
of the example (glossary of Maps, compatibility and sameness) and from the
semantic comments the source itself attaches to each library call
(`x = beta*x + alpha*z`, etc.).  Scalars (`double` in the source) are
modelled as rationals so that the whole development is executable.
-/

namespace TpetraVectorExample

/-- Scalar values of the example (the source's `scalar_type`, i.e. `double`),
modelled as rationals so that every definition is executable. -/
abbrev Scalar := ℚ

/-- The scalar `alpha = 3.14159` of the source. -/
def alpha : Scalar := 3.14159

/-- The scalar `beta = 2.71828` of the source. -/
def beta : Scalar := 2.71828

/-- The scalar `gamma = -10` of the source. -/
def gamma : Scalar := -10

/-- Modelled from the spec: a Map is "an immutable assignment of global
integer indices to owning process ranks".  We record the number of
participating processes, the global element count, the index base, and, for
each rank, the list of global indices that rank owns. -/
structure TMap where
  numProcs : ℕ
  numGlobalElements : ℕ
  indexBase : ℤ
  elementList : ℕ → List ℤ

/-- Concatenation, in rank order, of the per-rank index lists of the first
`n` ranks. -/
def concatLists : ℕ → (ℕ → List ℤ) → List ℤ
  | 0, _ => []
  | n + 1, f => concatLists n f ++ f n

/-- All global indices of a Map, listed in rank order. -/
def TMap.globalList (m : TMap) : List ℤ := concatLists m.numProcs m.elementList

/-- Modelled from the spec: a contiguous distribution is one where "each
process owns one unbroken block of global indices"; a Map reports itself
contiguous when its per-rank lists, concatenated in rank order, are exactly
the range `[indexBase, indexBase + numGlobalElements)`. -/
def TMap.isContiguous (m : TMap) : Bool :=
  decide (m.globalList =
    (List.range m.numGlobalElements).map (fun i : ℕ => m.indexBase + (i : ℤ)))

/-- Modelled from the spec: "Compatible maps: same total element count and
partition shape", i.e. the same number of owned indices on every rank. -/
def TMap.isCompatible (m1 m2 : TMap) : Bool :=
  decide (m1.numProcs = m2.numProcs ∧
    m1.numGlobalElements = m2.numGlobalElements ∧
    ∀ r < m1.numProcs, (m1.elementList r).length = (m2.elementList r).length)

/-- Modelled from the spec: two Maps are the same distribution when every
rank owns exactly the same global indices. -/
def TMap.isSameAs (m1 m2 : TMap) : Bool :=
  decide (m1.numProcs = m2.numProcs ∧
    m1.numGlobalElements = m2.numGlobalElements ∧
    m1.indexBase = m2.indexBase ∧
    ∀ r < m1.numProcs, m1.elementList r = m2.elementList r)

/-- The contiguous Map of the source: `numGlobalElements = P * 5`, index
base `0`, and the block distribution in which rank `r` owns the unbroken
block `[r*5, r*5 + 5)` (the library's even split of `P * 5` elements over
`P` processes). -/
def contigMap (P : ℕ) : TMap where
  numProcs := P
  numGlobalElements := P * 5
  indexBase := 0
  elementList := fun r => (List.range 5).map (fun j : ℕ => (r : ℤ) * 5 + (j : ℤ))

/-- The cyclic Map of the source: each rank `r` lists the global indices
`r + k * P` for `k` in `[0, 5)` (source line `elementList[k] = myRank +
k*numProcs`). -/
def cyclicMap (P : ℕ) : TMap where
  numProcs := P
  numGlobalElements := P * 5
  indexBase := 0
  elementList := fun r => (List.range 5).map (fun k : ℕ => (r : ℤ) + (k : ℤ) * (P : ℤ))

/-- Condition of the source's first `TEST_FOR_EXCEPTION`: the supposedly
contiguous Map is not contiguous. -/
def check1 (P : ℕ) : Bool := !(contigMap P).isContiguous

/-- Condition of the source's second `TEST_FOR_EXCEPTION`: more than one
process and the cyclic Map claims to be contiguous. -/
def check2 (P : ℕ) : Bool := decide (1 < P) && (cyclicMap P).isContiguous

/-- Condition of the source's third `TEST_FOR_EXCEPTION`: the contiguous Map
is not compatible with the cyclic Map. -/
def check3 (P : ℕ) : Bool := !((contigMap P).isCompatible (cyclicMap P))

/-- Condition of the source's fourth `TEST_FOR_EXCEPTION`: more than one
process and the two Maps are the same distribution. -/
def check4 (P : ℕ) : Bool := decide (1 < P) && (contigMap P).isSameAs (cyclicMap P)

/-- The Map-construction phase of `exampleRoutine`: build the two Maps and
run the four assertions in source order; a firing assertion raises a fatal
`std::logic_error`, modelled as `Except.error` with the source's message. -/
def mapPhase (P : ℕ) : Except String (TMap × TMap) :=
  if check1 P then .error "The supposedly contiguous Map is not contiguous." else
  if check2 P then .error "The cyclic Map claims to be contiguous." else
  if check3 P then .error "contigMap should be compatible with cyclicMap, but it is not." else
  if check4 P then .error "contigMap should be compatible with cyclicMap, but it is not." else
  .ok (contigMap P, cyclicMap P)

/- Sanity checks on small instances (kept as lemmas). -/
example : (contigMap 2).isContiguous = true := by decide
example : (cyclicMap 2).isContiguous = false := by decide
example : (cyclicMap 1).isContiguous = true := by decide
example : (contigMap 3).isCompatible (cyclicMap 3) = true := by decide
example : (contigMap 1).isSameAs (cyclicMap 1) = true := by decide
example : (contigMap 2).isSameAs (cyclicMap 2) = false := by decide
example : mapPhase 2 = .ok (contigMap 2, cyclicMap 2) := rfl

/-- The three vector variables of the routine. -/
inductive Var where
  | x | y | z
deriving DecidableEq

/-- The vector-phase statements of `exampleRoutine`, in the source's
vocabulary: zero-filling allocation `vector_type(map)`, deep-copying
allocation `vector_type(*src)`, uninitialized allocation
`vector_type(map, false)`, `randomize()`, `putScalar(c)`, the two-argument
`update(a, src, b)` (meaning `v := b*v + a*src`), the four-argument
`update(a, s1, b, s2, g)` (meaning `v := g*v + a*s1 + b*s2`), and `norm2()`
followed by printing the result. -/
inductive Stmt where
  | allocZero (v : Var) (m : TMap)
  | allocCopy (dst src : Var)
  | allocUninit (v : Var) (m : TMap)
  | randomize (v : Var)
  | putScalar (v : Var) (c : Scalar)
  | update2 (v : Var) (a : Scalar) (src : Var) (b : Scalar)
  | update3 (v : Var) (a : Scalar) (s1 : Var) (b : Scalar) (s2 : Var) (g : Scalar)
  | printNorm (v : Var)

/-- An allocated vector: the Map it is built over, and its entries, viewed
globally as a function from global index positions (only positions below
`onMap.numGlobalElements` are meaningful). -/
structure EnvVal where
  onMap : TMap
  vals : ℕ → Scalar

/-- State of the vector phase: the (possibly not yet allocated) vectors
`x`, `y`, `z`, and the list of printed squared 2-norms, in print order. -/
structure RState where
  x : Option EnvVal
  y : Option EnvVal
  z : Option EnvVal
  printed : List Scalar

/-- State before any vector is allocated. -/
def initState : RState := ⟨none, none, none, []⟩

/-- Read a vector variable. -/
def RState.get (s : RState) : Var → Option EnvVal
  | .x => s.x
  | .y => s.y
  | .z => s.z

/-- Write a vector variable. -/
def RState.set (s : RState) : Var → Option EnvVal → RState
  | .x, v => { s with x := v }
  | .y, v => { s with y := v }
  | .z, v => { s with z := v }

/-- The sum of squared entries of a vector over the elements of its Map.
The 2-norm the source prints is the square root of this value, so equality
of these sums is equality of the printed 2-norms. -/
def normSqOf (ev : EnvVal) : Scalar :=
  ∑ i in Finset.range ev.onMap.numGlobalElements, ev.vals i ^ 2

/-- One step of the vector phase.  `rnd` supplies the entries `randomize()`
produces, `uninit` the junk contents of an uninitialized allocation; both
are parameters because the source leaves them unspecified.  A statement
reading an unallocated variable leaves the state unchanged (no such
statement occurs in the routine, as the theorems below compute). -/
def step (rnd uninit : ℕ → Scalar) (s : RState) : Stmt → RState
  | .allocZero v m => s.set v (some ⟨m, fun _ => 0⟩)
  | .allocCopy dst src =>
      match s.get src with
      | some ev => s.set dst (some ⟨ev.onMap, ev.vals⟩)
      | none => s
  | .allocUninit v m => s.set v (some ⟨m, uninit⟩)
  | .randomize v =>
      match s.get v with
      | some ev => s.set v (some ⟨ev.onMap, rnd⟩)
      | none => s
  | .putScalar v c =>
      match s.get v with
      | some ev => s.set v (some ⟨ev.onMap, fun _ => c⟩)
      | none => s
  | .update2 v a src b =>
      match s.get v, s.get src with
      | some ev, some sv => s.set v (some ⟨ev.onMap, fun i => b * ev.vals i + a * sv.vals i⟩)
      | _, _ => s
  | .update3 v a s1 b s2 g =>
      match s.get v, s.get s1, s.get s2 with
      | some ev, some v1, some v2 =>
          s.set v (some ⟨ev.onMap, fun i => g * ev.vals i + a * v1.vals i + b * v2.vals i⟩)
      | _, _, _ => s
  | .printNorm v =>
      match s.get v with
      | some ev => { s with printed := s.printed ++ [normSqOf ev] }
      | none => s

/-- Run a list of statements in order. -/
def run (rnd uninit : ℕ → Scalar) (l : List Stmt) (s : RState) : RState :=
  l.foldl (step rnd uninit) s

/-- The vector phase of `exampleRoutine`, statement by statement in source
order: allocate `x` zero-filled over the contiguous Map; allocate `y` as a
deep copy of `x`; allocate `z` uninitialized over the contiguous Map;
randomize `z`; set `x` to all ones; `x := beta*x + alpha*z`; set `y` to 42;
`y := gamma*y + alpha*x + beta*z`; print the 2-norm of `y`, of `x`, of `z`. -/
def routineProgram (P : ℕ) : List Stmt :=
  [ .allocZero .x (contigMap P),
    .allocCopy .y .x,
    .allocUninit .z (contigMap P),
    .randomize .z,
    .putScalar .x 1,
    .update2 .x alpha .z beta,
    .putScalar .y 42,
    .update3 .y alpha .x beta .z gamma,
    .printNorm .y,
    .printNorm .x,
    .printNorm .z ]

/-- Whether a statement allocates a vector. -/
def Stmt.isAlloc : Stmt → Bool
  | .allocZero _ _ => true
  | .allocCopy _ _ => true
  | .allocUninit _ _ => true
  | _ => false

/-- The Map a (non-copying) allocation statement builds its vector over. -/
def Stmt.allocMapOf : Stmt → Option TMap
  | .allocZero _ m => some m
  | .allocUninit _ m => some m
  | _ => none

/-- Observable events of the whole routine, in order: the version print, a
fixed text print, the execution of a shell command, the print of the raw
shell return status, the construction of a Map, a fatal logic error, and
the print of a 2-norm (recorded by its square, which determines it). -/
inductive Event where
  | version
  | msg (s : String)
  | shell (cmd : String)
  | shellStatus (st : ℤ)
  | mapBuilt (m : TMap)
  | fatal (s : String)
  | normPrinted (q : Scalar)

/-- Whether an event is a shell-command execution. -/
def Event.isShell : Event → Bool
  | .shell _ => true
  | _ => false

/-- The events of `exampleRoutine` before any Map is built, in source
order: print the Tpetra version, print "This is a test", execute
`system("echo helloooo!")`, print the raw return status `st`. -/
def headerEvents (st : ℤ) : List Event :=
  [.version, .msg "This is a test", .shell "echo helloooo!", .shellStatus st]

/-- The full event trace of `exampleRoutine`, parameterized by the number
of processes `P`, the raw status `st` the shell command returns, and the
contents `rnd`/`uninit` produced by `randomize()` and by uninitialized
allocation. -/
def exampleRoutineTrace (P : ℕ) (st : ℤ) (rnd uninit : ℕ → Scalar) : List Event :=
  headerEvents st ++
    match mapPhase P with
    | .error e => [.fatal e]
    | .ok (m1, m2) =>
        [.mapBuilt m1, .mapBuilt m2] ++
          ((run rnd uninit (routineProgram P) initState).printed.map Event.normPrinted)

/-- The routine as a whole: a fatal logic error from an assertion aborts it,
otherwise it completes with the final vector-phase state. -/
def exampleRoutineResult (P : ℕ) (rnd uninit : ℕ → Scalar) : Except String RState :=
  (mapPhase P).map (fun _ => run rnd uninit (routineProgram P) initState)

/-- The `main` driver: it calls `exampleRoutine` and returns `0`; an
uncaught logic error terminates the process abnormally (`Except.error`)
instead of returning an exit code. -/
def mainResult (P : ℕ) (rnd uninit : ℕ → Scalar) : Except String ℤ :=
  (exampleRoutineResult P rnd uninit).map (fun _ => 0)

/-! Lemmas about the two Maps. -/

/-- Concatenating the block lists of ranks `0, …, P-1` yields the full
index range `[0, P*5)`. -/
theorem contig_concat (P : ℕ) :
    concatLists P (fun r => (List.range 5).map (fun j : ℕ => (r : ℤ) * 5 + (j : ℤ))) =
      (List.range (P * 5)).map (fun i : ℕ => (i : ℤ)) := by
  induction P with
  | zero => rfl
  | succ n ih =>
      have h5 : (n + 1) * 5 = n * 5 + 5 := by ring
      rw [concatLists, ih, h5, List.range_add, List.map_append, List.map_map]
      congr 1

/-- Front decomposition of `concatLists`. -/
theorem concatLists_cons (n : ℕ) (f : ℕ → List ℤ) :
    concatLists (n + 1) f = f 0 ++ concatLists n (fun i => f (i + 1)) := by
  induction n with
  | zero => simp [concatLists]
  | succ m ih =>
      calc concatLists (m + 2) f = concatLists (m + 1) f ++ f (m + 1) := rfl
        _ = (f 0 ++ concatLists m (fun i => f (i + 1))) ++ f (m + 1) := by rw [ih]
        _ = f 0 ++ (concatLists m (fun i => f (i + 1)) ++ f (m + 1)) := by
              rw [List.append_assoc]
        _ = f 0 ++ concatLists (m + 1) (fun i => f (i + 1)) := rfl

/-- The contiguous Map always reports itself contiguous. -/
theorem contigMap_isContiguous (P : ℕ) : (contigMap P).isContiguous = true := by
  rw [TMap.isContiguous, decide_eq_true_eq]
  show concatLists P _ = _
  simp only [contigMap]
  rw [contig_concat]
  simp

/-- For more than one process the cyclic Map is not contiguous: position 1
of its rank-ordered index list is `P`, not `1`. -/
theorem cyclicMap_not_contiguous {P : ℕ} (h : 1 < P) :
    (cyclicMap P).isContiguous = false := by
  rw [TMap.isContiguous, decide_eq_false_iff_not]
  intro hEq
  obtain ⟨n, rfl⟩ : ∃ n, P = n + 2 := ⟨P - 2, by omega⟩
  have h1 : ((cyclicMap (n + 2)).globalList)[1]? =
      ((List.range ((cyclicMap (n + 2)).numGlobalElements)).map
        (fun i : ℕ => (cyclicMap (n + 2)).indexBase + (i : ℤ)))[1]? := by
    rw [hEq]
  simp only [TMap.globalList, cyclicMap, concatLists_cons] at h1
  rw [List.getElem?_append_left (by simp), List.getElem?_map,
      List.getElem?_map, List.getElem?_range (by omega),
      List.getElem?_range (by omega)] at h1
  simp only [Option.map_some'] at h1
  rw [Option.some_inj] at h1
  push_cast at h1
  omega

/-- The two Maps are compatible: five elements on every rank. -/
theorem maps_isCompatible (P : ℕ) :
    (contigMap P).isCompatible (cyclicMap P) = true := by
  rw [TMap.isCompatible, decide_eq_true_eq]
  refine ⟨rfl, rfl, fun r _ => ?_⟩
  simp [contigMap, cyclicMap]

/-- Compatibility in the other direction. -/
theorem maps_isCompatible_symm (P : ℕ) :
    (cyclicMap P).isCompatible (contigMap P) = true := by
  rw [TMap.isCompatible, decide_eq_true_eq]
  refine ⟨rfl, rfl, fun r _ => ?_⟩
  simp [contigMap, cyclicMap]

/-- For more than one process the two Maps differ as distributions: rank 0
owns `[0,1,2,3,4]` in the contiguous Map but `[0,P,2P,3P,4P]` in the cyclic
one. -/
theorem maps_not_isSameAs {P : ℕ} (h : 1 < P) :
    (contigMap P).isSameAs (cyclicMap P) = false := by
  rw [TMap.isSameAs, decide_eq_false_iff_not]
  rintro ⟨-, -, -, hAll⟩
  have h0 := hAll 0 (by simp [contigMap]; omega)
  simp only [contigMap, cyclicMap] at h0
  have h1 : ((List.range 5).map (fun j : ℕ => ((0 : ℕ) : ℤ) * 5 + (j : ℤ)))[1]? =
      ((List.range 5).map (fun k : ℕ => ((0 : ℕ) : ℤ) + (k : ℤ) * (P : ℤ)))[1]? := by
    rw [h0]
  rw [List.getElem?_map, List.getElem?_map,
      List.getElem?_range (by omega)] at h1
  simp only [Option.map_some'] at h1
  rw [Option.some_inj] at h1
  push_cast at h1
  omega

/-- The first assertion's condition is always false. -/
theorem check1_false (P : ℕ) : check1 P = false := by
  simp [check1, contigMap_isContiguous]

/-- The second assertion's condition is always false. -/
theorem check2_false (P : ℕ) : check2 P = false := by
  by_cases h : 1 < P
  · simp [check2, cyclicMap_not_contiguous h]
  · simp [check2, h]

/-- The third assertion's condition is always false. -/
theorem check3_false (P : ℕ) : check3 P = false := by
  simp [check3, maps_isCompatible]

/-- The fourth assertion's condition is always false. -/
theorem check4_false (P : ℕ) : check4 P = false := by
  by_cases h : 1 < P
  · simp [check4, maps_not_isSameAs h]
  · simp [check4, h]

/-- The Map phase always completes, yielding the two Maps. -/
theorem mapPhase_ok (P : ℕ) : mapPhase P = .ok (contigMap P, cyclicMap P) := by
  simp [mapPhase, check1_false, check2_false, check3_false, check4_false]

/-- Every vector the routine builds remains distinct from the cyclic Map:
rank 1 owns `[5,…,9]` in the contiguous Map but `[1, 1+P, …]` in the cyclic
one. -/
theorem contigMap_ne_cyclicMap (P : ℕ) : contigMap P ≠ cyclicMap P := by
  intro hEq
  have h1 : (contigMap P).elementList 1 = (cyclicMap P).elementList 1 := by
    rw [hEq]
  simp only [contigMap, cyclicMap] at h1
  have h2 : ((List.range 5).map (fun j : ℕ => ((1 : ℕ) : ℤ) * 5 + (j : ℤ)))[0]? =
      ((List.range 5).map (fun k : ℕ => ((1 : ℕ) : ℤ) + (k : ℤ) * (P : ℤ)))[0]? := by
    rw [h1]
  rw [List.getElem?_map, List.getElem?_map, List.getElem?_range (by omega)] at h2
  simp only [Option.map_some'] at h2
  rw [Option.some_inj] at h2
  push_cast at h2
  omega

/-! Evaluation of the vector phase. -/

/-- The final state of the vector phase in closed form: `x` holds
`beta*1 + alpha*z`, `y` holds `gamma*42 + alpha*x + beta*z` computed with
the already-updated `x`, `z` holds its random entries, and the squared
2-norms of `y`, `x`, `z` were printed in that order. -/
theorem run_routineProgram (P : ℕ) (rnd uninit : ℕ → Scalar) :
    run rnd uninit (routineProgram P) initState =
      { x := some ⟨contigMap P, fun i => beta * 1 + alpha * rnd i⟩,
        y := some ⟨contigMap P, fun i =>
          gamma * 42 + alpha * (beta * 1 + alpha * rnd i) + beta * rnd i⟩,
        z := some ⟨contigMap P, rnd⟩,
        printed :=
          [normSqOf ⟨contigMap P, fun i =>
             gamma * 42 + alpha * (beta * 1 + alpha * rnd i) + beta * rnd i⟩,
           normSqOf ⟨contigMap P, fun i => beta * 1 + alpha * rnd i⟩,
           normSqOf ⟨contigMap P, rnd⟩] } := rfl

/-- The full event trace with the (always passing) assertions resolved. -/
theorem exampleRoutineTrace_eq (P : ℕ) (st : ℤ) (rnd uninit : ℕ → Scalar) :
    exampleRoutineTrace P st rnd uninit =
      headerEvents st ++
        ([.mapBuilt (contigMap P), .mapBuilt (cyclicMap P)] ++
          ((run rnd uninit (routineProgram P) initState).printed.map Event.normPrinted)) := by
  rw [exampleRoutineTrace, mapPhase_ok]

/-! Claim theorems. -/

/-- C2: for every process count `P`, the routine computes
`numGlobalElements = P * 5` and builds a contiguous (block) Map over that
many elements with index base 0; that Map reports itself contiguous, so the
logic-error branch of the first assertion is unreachable (its condition
`check1` is false). -/
theorem claim_contig_map_contiguous (P : ℕ) :
    (contigMap P).numGlobalElements = P * 5 ∧ (contigMap P).indexBase = 0 ∧
      (contigMap P).isContiguous = true ∧ check1 P = false :=
  ⟨rfl, rfl, contigMap_isContiguous P, check1_false P⟩

/-- C3: for every process count `P > 1`, the cyclic Map built from the
per-rank lists `r + k*P`, `k ∈ [0,5)`, reports itself non-contiguous, and
the logic-error branch of the second assertion is unreachable for every `P`
(its condition `check2` is false). -/
theorem claim_cyclic_map_noncontiguous (P : ℕ) :
    (1 < P → (cyclicMap P).isContiguous = false) ∧ check2 P = false :=
  ⟨fun h => cyclicMap_not_contiguous h, check2_false P⟩

/-- Witness for C3 at the concrete process count `P = 2`. -/
theorem claim_cyclic_map_noncontiguous_witness :
    1 < 2 ∧ (cyclicMap 2).isContiguous = false :=
  ⟨by decide, (claim_cyclic_map_noncontiguous 2).1 (by decide)⟩

/-- C4: for every process count `P`, the contiguous and cyclic Maps over
the same global element count `5*P` are mutually compatible, so the
logic-error branch of the compatibility assertion is unreachable (its
condition `check3` is false). -/
theorem claim_maps_compatible (P : ℕ) :
    (contigMap P).isCompatible (cyclicMap P) = true ∧
      (cyclicMap P).isCompatible (contigMap P) = true ∧ check3 P = false :=
  ⟨maps_isCompatible P, maps_isCompatible_symm P, check3_false P⟩

/-- C5: for every `P > 1` the two Maps are not identical as distributions,
the guarded non-identity condition `check4` is false for every `P`, and at
`P = 1`, where the two Maps do coincide (`isSameAs` is true), the Map phase
still completes because the check is guarded by `P > 1`. -/
theorem claim_maps_not_identical_guarded :
    (∀ P, 1 < P → (contigMap P).isSameAs (cyclicMap P) = false) ∧
      (∀ P, check4 P = false) ∧
      (contigMap 1).isSameAs (cyclicMap 1) = true ∧
      mapPhase 1 = .ok (contigMap 1, cyclicMap 1) :=
  ⟨fun _ h => maps_not_isSameAs h, check4_false, by decide, mapPhase_ok 1⟩

/-- Witness for C5 at the concrete process count `P = 2`. -/
theorem claim_maps_not_identical_guarded_witness :
    1 < 2 ∧ (contigMap 2).isSameAs (cyclicMap 2) = false :=
  ⟨by decide, claim_maps_not_identical_guarded.1 2 (by decide)⟩

/-- C1: after the three vectors are built the routine performs, in source
order, `x := 1`, `x := beta*x + alpha*z`, `y := 42`,
`y := gamma*y + alpha*x + beta*z` (with the already-updated `x`), and then
prints the 2-norm of `y`, then of `x`, then of `z`: the final `x` holds
`beta*1 + alpha*z`, the final `y` holds `gamma*42 + alpha*(beta*1 +
alpha*z) + beta*z`, and the printed squared 2-norms (whose square roots are
the printed norms) appear in the order `y`, `x`, `z`. -/
theorem claim_routine_order (P : ℕ) (rnd uninit : ℕ → Scalar) :
    (run rnd uninit (routineProgram P) initState).x =
        some ⟨contigMap P, fun i => beta * 1 + alpha * rnd i⟩ ∧
      (run rnd uninit (routineProgram P) initState).y =
        some ⟨contigMap P, fun i =>
          gamma * 42 + alpha * (beta * 1 + alpha * rnd i) + beta * rnd i⟩ ∧
      (run rnd uninit (routineProgram P) initState).printed =
        [normSqOf ⟨contigMap P, fun i =>
           gamma * 42 + alpha * (beta * 1 + alpha * rnd i) + beta * rnd i⟩,
         normSqOf ⟨contigMap P, fun i => beta * 1 + alpha * rnd i⟩,
         normSqOf ⟨contigMap P, rnd⟩] := by
  rw [run_routineProgram]
  exact ⟨rfl, rfl, rfl⟩

/-- C6: the routine allocates exactly three vectors: after the three
allocation statements, `x` is zero-filled over the contiguous Map, `y` (a
deep copy of `x`) is also zero-filled over the contiguous Map, and `z` is
over the contiguous Map with uninitialized contents; the following
statement fills `z` with the pseudo-random values; and the program contains
exactly three allocation statements. -/
theorem claim_three_vectors (P : ℕ) (rnd uninit : ℕ → Scalar) :
    (run rnd uninit ((routineProgram P).take 3) initState).x =
        some ⟨contigMap P, fun _ => 0⟩ ∧
      (run rnd uninit ((routineProgram P).take 3) initState).y =
        some ⟨contigMap P, fun _ => 0⟩ ∧
      (run rnd uninit ((routineProgram P).take 3) initState).z =
        some ⟨contigMap P, uninit⟩ ∧
      (run rnd uninit ((routineProgram P).take 4) initState).z =
        some ⟨contigMap P, rnd⟩ ∧
      (routineProgram P).countP Stmt.isAlloc = 3 :=
  ⟨rfl, rfl, rfl, rfl, rfl⟩

/-- Modelled from the spec: the all-ones vector. -/
def onesVec : ℕ → Scalar := fun _ => 1

/-- Modelled from the spec: the comparison vector `beta*ones + alpha*z`
computed independently from the same `z`. -/
def independentX (z : ℕ → Scalar) : ℕ → Scalar :=
  fun i => beta * onesVec i + alpha * z i

/-- C7: after `x := 1`, `z := random` and `x := beta*x + alpha*z`, the
final `x` equals, entry by entry, the independently computed vector
`beta*ones + alpha*z`, and hence its squared 2-norm (whose square root is
the 2-norm) equals that of the independent vector. -/
theorem claim_xnorm_independent (P : ℕ) (rnd uninit : ℕ → Scalar) :
    ((run rnd uninit (routineProgram P) initState).x).map EnvVal.vals =
        some (independentX rnd) ∧
      ((run rnd uninit (routineProgram P) initState).x).map normSqOf =
        some (normSqOf ⟨contigMap P, independentX rnd⟩) := by
  rw [run_routineProgram]
  exact ⟨rfl, rfl⟩

/-- C8: every vector allocation of the routine uses the contiguous Map (the
allocation statements carry the Maps `[contigMap P, contigMap P]` and the
deep copy inherits `x`'s Map); at the state in which each of the two update
operations executes, all operand vectors carry the same Map `contigMap P`;
and the cyclic Map, which is distinct from the contiguous one, is never the
Map of any vector. -/
theorem claim_vectors_on_contigMap (P : ℕ) (rnd uninit : ℕ → Scalar) :
    (routineProgram P).filterMap Stmt.allocMapOf = [contigMap P, contigMap P] ∧
      ((run rnd uninit ((routineProgram P).take 5) initState).x).map EnvVal.onMap =
        some (contigMap P) ∧
      ((run rnd uninit ((routineProgram P).take 5) initState).z).map EnvVal.onMap =
        some (contigMap P) ∧
      ((run rnd uninit ((routineProgram P).take 7) initState).y).map EnvVal.onMap =
        some (contigMap P) ∧
      ((run rnd uninit ((routineProgram P).take 7) initState).x).map EnvVal.onMap =
        some (contigMap P) ∧
      ((run rnd uninit ((routineProgram P).take 7) initState).z).map EnvVal.onMap =
        some (contigMap P) ∧
      contigMap P ≠ cyclicMap P :=
  ⟨rfl, rfl, rfl, rfl, rfl, rfl, contigMap_ne_cyclicMap P⟩

/-- Witness for C8 at `P = 1` with concrete vector contents. -/
theorem claim_vectors_on_contigMap_witness :
    (routineProgram 1).filterMap Stmt.allocMapOf = [contigMap 1, contigMap 1] :=
  (claim_vectors_on_contigMap 1 (fun _ => 0) (fun _ => 0)).1

/-- C9: the routine's event trace contains exactly one shell execution; it
is the hardcoded command `echo helloooo!` at position 2, before any Map is
built (every Map-construction event lies strictly later); the command's raw
return status is printed immediately after; and the remainder of the trace
is independent of that status (it is never inspected or branched on). -/
theorem claim_shell_command (P : ℕ) (st : ℤ) (rnd uninit : ℕ → Scalar) :
    (exampleRoutineTrace P st rnd uninit).countP Event.isShell = 1 ∧
      (exampleRoutineTrace P st rnd uninit)[2]? =
        some (.shell "echo helloooo!") ∧
      (exampleRoutineTrace P st rnd uninit)[3]? = some (.shellStatus st) ∧
      (∀ i m, (exampleRoutineTrace P st rnd uninit)[i]? =
        some (.mapBuilt m) → 3 < i) ∧
      (∀ st2 : ℤ, (exampleRoutineTrace P st2 rnd uninit).drop 4 =
        (exampleRoutineTrace P st rnd uninit).drop 4) := by
  refine ⟨?_, ?_, ?_, ?_, ?_⟩
  · rw [exampleRoutineTrace_eq, run_routineProgram]
    rfl
  · rw [exampleRoutineTrace_eq]
    rfl
  · rw [exampleRoutineTrace_eq]
    rfl
  · intro i m h
    rw [exampleRoutineTrace_eq] at h
    match i with
    | 0 => simp [headerEvents] at h
    | 1 => simp [headerEvents] at h
    | 2 => simp [headerEvents] at h
    | 3 => simp [headerEvents] at h
    | (n + 4) => omega
  · intro st2
    rw [exampleRoutineTrace_eq, exampleRoutineTrace_eq]
    rfl

/-- Witness for C9: at `P = 1`, status `7` and concrete vector contents,
the first Map-construction event sits at position 4, strictly after the
shell command and its status print. -/
theorem claim_shell_command_witness :
    (exampleRoutineTrace 1 7 (fun _ => 0) (fun _ => 0))[4]? =
        some (.mapBuilt (contigMap 1)) ∧ 3 < 4 :=
  ⟨rfl, (claim_shell_command 1 7 (fun _ => 0) (fun _ => 0)).2.2.2.1 4
    (contigMap 1) rfl⟩

/-- C10: on every run in which the routine completes, `main` returns exit
code 0; the only other outcome in the model is the fatal logic error of a
failing assertion (`Except.error`), which terminates abnormally instead of
returning — and since all four assertion conditions are false, the result
is always `Except.ok 0`. -/
theorem claim_exit_code_zero (P : ℕ) (rnd uninit : ℕ → Scalar) :
    mainResult P rnd uninit = .ok 0 := by
  simp only [mainResult, exampleRoutineResult, mapPhase_ok]
  rfl

end TpetraVectorExample
